import Mathlib

/-!
Verification of the `py/setup.py` packaging script of the thermostat-eem
repository.

The script is a straight-line Python module: a docstring, one import, and a
single call to `setuptools.setup` with constant keyword arguments (plus one
call to `setuptools.find_packages`).  We embed the script as a term of a
small Python statement/expression language, give that language an executable
evaluator that records every `setup(...)` registration, model
`find_packages` as a recursive walk over an abstract directory tree, and
prove the spec's claims about the resulting package descriptor.
-/

namespace ThermostatSetup

/-- A directory node of the project tree: its name, whether it contains an
`__init__.py` marker file, and its subdirectories. -/
inductive Dir where
  | mk (name : String) (hasInit : Bool) (children : List Dir)

def Dir.name : Dir → String
  | .mk n _ _ => n

def Dir.hasInit : Dir → Bool
  | .mk _ h _ => h

def Dir.children : Dir → List Dir
  | .mk _ _ c => c

/-- Join a dotted package path with one more component, as
`setuptools.find_packages` builds dotted package names. -/
def dotted (pre n : String) : String :=
  if pre = "" then n else pre ++ "." ++ n

mutual

/-- Modelled from the spec: `setuptools.find_packages`, external to this
repository, which "discovers installable sub-packages automatically from
directory structure".  A directory is a package when it carries the
`__init__.py` marker; discovery descends into package directories only and
yields dotted names. -/
def pkgsOfDir (pre : String) : Dir → List String
  | .mk n hi cs =>
    if hi then dotted pre n :: pkgsOfDirs (dotted pre n) cs else []

def pkgsOfDirs (pre : String) : List Dir → List String
  | [] => []
  | d :: ds => pkgsOfDir pre d ++ pkgsOfDirs pre ds

end

/-- Modelled from the spec: the result of `find_packages()` on the project
root, given the root's list of subdirectories. -/
def find_packages (layout : List Dir) : List String :=
  pkgsOfDirs "" layout

/-- A dotted package path `["a", "b"]` denotes the sub-package `a.b`: each
component is a directory carrying `__init__.py`, nested under the previous
one, the first directly under the project root. -/
inductive PkgPath : List Dir → List String → Prop where
  | here (d : Dir) (ds : List Dir) :
      d ∈ ds → d.hasInit = true → PkgPath ds [d.name]
  | there (d : Dir) (ds : List Dir) (rest : List String) :
      d ∈ ds → d.hasInit = true → PkgPath d.children rest →
      PkgPath ds (d.name :: rest)

/-- Fold a dotted package path into its dotted name. -/
def foldDotted (pre : String) : List String → String
  | [] => pre
  | n :: rest => foldDotted (dotted pre n) rest

/-- Python runtime values occurring in the script: strings, lists, `None`. -/
inductive PyVal where
  | str (s : String)
  | list (elems : List PyVal)
  | none

/-- Python expressions occurring in (or absent from) the script. -/
inductive PyExpr where
  | strLit (s : String)
  | listLit (elems : List PyExpr)
  | nameRef (n : String)
  | call (fn : String) (args : List PyExpr) (kwargs : List (String × PyExpr))

/-- Python statements.  The embedding keeps constructors the script does
NOT use (assignment, attribute assignment, branching, `raise`,
`try`/`except`) so that their absence from the script body is a
meaningful, checkable property. -/
inductive PyStmt where
  | importFrom (module : String) (names : List String)
  | exprStmt (e : PyExpr)
  | assign (target : String) (value : PyExpr)
  | attrAssign (obj field : String) (value : PyExpr)
  | ifStmt (cond : PyExpr) (thn els : List PyStmt)
  | raiseStmt (e : PyExpr)
  | tryStmt (body handler : List PyStmt)

/-- Errors the evaluator can produce: unknown names and raised values. -/
inductive PyErr where
  | nameError (n : String)
  | raised (v : PyVal)

/-- One registration performed by a call to `setuptools.setup`: the keyword
arguments, evaluated, in call order. -/
structure SetupCall where
  kwargs : List (String × PyVal)

/-- Evaluator state: the variable environment, the registrations performed
so far, and a count of attribute mutations performed so far. -/
structure PState where
  env : List (String × PyVal)
  regs : List SetupCall
  muts : Nat

mutual

/-- Evaluate one expression: result value plus the `setup` registrations the
evaluation performed.  `find_packages()` consults the directory layout;
`setup(...)` records its evaluated keyword arguments. -/
def evalExpr (layout : List Dir) (env : List (String × PyVal)) :
    PyExpr → Except PyErr (PyVal × List SetupCall)
  | .strLit s => .ok (.str s, [])
  | .nameRef n =>
    match env.find? (fun p => p.1 = n) with
    | some p => .ok (p.2, [])
    | none => .error (.nameError n)
  | .listLit es =>
    match evalExprList layout env es with
    | .error e => .error e
    | .ok (vs, cs) => .ok (.list vs, cs)
  | .call fn args kwargs =>
    match evalExprList layout env args with
    | .error e => .error e
    | .ok (_, cs1) =>
      match evalKwargs layout env kwargs with
      | .error e => .error e
      | .ok (kvs, cs2) =>
        if fn = "find_packages" then
          .ok (.list ((find_packages layout).map PyVal.str), cs1 ++ cs2)
        else if fn = "setup" then
          .ok (.none, cs1 ++ cs2 ++ [⟨kvs⟩])
        else
          .error (.nameError fn)

def evalExprList (layout : List Dir) (env : List (String × PyVal)) :
    List PyExpr → Except PyErr (List PyVal × List SetupCall)
  | [] => .ok ([], [])
  | e :: es =>
    match evalExpr layout env e with
    | .error err => .error err
    | .ok (v, cs) =>
      match evalExprList layout env es with
      | .error err => .error err
      | .ok (vs, css) => .ok (v :: vs, cs ++ css)

def evalKwargs (layout : List Dir) (env : List (String × PyVal)) :
    List (String × PyExpr) → Except PyErr (List (String × PyVal) × List SetupCall)
  | [] => .ok ([], [])
  | (k, e) :: rest =>
    match evalExpr layout env e with
    | .error err => .error err
    | .ok (v, cs) =>
      match evalKwargs layout env rest with
      | .error err => .error err
      | .ok (kvs, css) => .ok ((k, v) :: kvs, cs ++ css)

end

/-- Python truthiness for the values of this language. -/
def truthy : PyVal → Bool
  | .str s => s != ""
  | .list es => !es.isEmpty
  | .none => false

mutual

/-- Execute one statement. -/
def evalStmt (layout : List Dir) (st : PState) : PyStmt → Except PyErr PState
  | .importFrom _ _ => .ok st
  | .exprStmt e =>
    match evalExpr layout st.env e with
    | .error err => .error err
    | .ok (_, cs) => .ok ⟨st.env, st.regs ++ cs, st.muts⟩
  | .assign t e =>
    match evalExpr layout st.env e with
    | .error err => .error err
    | .ok (v, cs) => .ok ⟨(t, v) :: st.env, st.regs ++ cs, st.muts⟩
  | .attrAssign _ _ e =>
    match evalExpr layout st.env e with
    | .error err => .error err
    | .ok (_, cs) => .ok ⟨st.env, st.regs ++ cs, st.muts + 1⟩
  | .ifStmt c thn els =>
    match evalExpr layout st.env c with
    | .error err => .error err
    | .ok (v, cs) =>
      if truthy v then evalStmts layout ⟨st.env, st.regs ++ cs, st.muts⟩ thn
      else evalStmts layout ⟨st.env, st.regs ++ cs, st.muts⟩ els
  | .raiseStmt e =>
    match evalExpr layout st.env e with
    | .error err => .error err
    | .ok (v, _) => .error (.raised v)
  | .tryStmt body handler =>
    match evalStmts layout st body with
    | .error _ => evalStmts layout st handler
    | .ok st1 => .ok st1

/-- Execute a statement list in order. -/
def evalStmts (layout : List Dir) (st : PState) : List PyStmt → Except PyErr PState
  | [] => .ok st
  | s :: rest =>
    match evalStmt layout st s with
    | .error err => .error err
    | .ok st1 => evalStmts layout st1 rest

end

/-- First dependency specifier of `install_requires` in `py/setup.py`. -/
def dep_stabilizer : String :=
  "stabilizer@git+https://github.com/quartiq/stabilizer@becc1c72#subdirectory=py"

/-- Second dependency specifier of `install_requires` in `py/setup.py`. -/
def dep_miniconf_mqtt : String :=
  "miniconf-mqtt@git+https://github.com/quartiq/miniconf@miniconf-v0.10.1#subdirectory=py/miniconf-mqtt"

/-- The statement list of `py/setup.py`: the module docstring, the import
from `setuptools`, and the single `setup(...)` call with its keyword
arguments in source order. -/
def setupPyBody : List PyStmt :=
  [ .exprStmt (.strLit "\nSetup script for Thermostat EEM\n"),
    .importFrom "setuptools" ["setup", "find_packages"],
    .exprStmt (.call "setup" []
      [ ("name", .strLit "thermostat"),
        ("packages", .call "find_packages" [] []),
        ("version", .strLit "0.1.0"),
        ("description", .strLit "Thermostat Utilities"),
        ("author", .strLit "QUARTIQ GmbH"),
        ("license", .strLit "MIT"),
        ("install_requires",
          .listLit [.strLit dep_stabilizer, .strLit dep_miniconf_mqtt]) ]) ]

/-- Evaluate the whole script from the empty state, under a given project
directory layout. -/
def runScript (layout : List Dir) : Except PyErr PState :=
  evalStmts layout ⟨[], [], 0⟩ setupPyBody

/-- The evaluated keyword arguments of the script's one `setup` call. -/
def thermostatKwargs (layout : List Dir) : List (String × PyVal) :=
  [ ("name", .str "thermostat"),
    ("packages", .list ((find_packages layout).map PyVal.str)),
    ("version", .str "0.1.0"),
    ("description", .str "Thermostat Utilities"),
    ("author", .str "QUARTIQ GmbH"),
    ("license", .str "MIT"),
    ("install_requires", .list [.str dep_stabilizer, .str dep_miniconf_mqtt]) ]

theorem runScript_eq (layout : List Dir) :
    runScript layout = .ok ⟨[], [⟨thermostatKwargs layout⟩], 0⟩ := rfl

mutual

/-- Count the statements satisfying `p`, descending into the bodies of
branching and exception-handling statements. -/
def countStmt (p : PyStmt → Bool) : PyStmt → Nat
  | .ifStmt c thn els =>
    (if p (.ifStmt c thn els) then 1 else 0) + countStmtList p thn + countStmtList p els
  | .tryStmt body handler =>
    (if p (.tryStmt body handler) then 1 else 0) + countStmtList p body + countStmtList p handler
  | s => if p s then 1 else 0

def countStmtList (p : PyStmt → Bool) : List PyStmt → Nat
  | [] => 0
  | s :: rest => countStmt p s + countStmtList p rest

end

/-- Is the statement an `if` branch? -/
def isBranch : PyStmt → Bool
  | .ifStmt _ _ _ => true
  | _ => false

/-- Is the statement a `raise`? -/
def isRaise : PyStmt → Bool
  | .raiseStmt _ => true
  | _ => false

/-- Is the statement a `try`/`except` handler? -/
def isTry : PyStmt → Bool
  | .tryStmt _ _ => true
  | _ => false

/-- Is the statement an attribute write `obj.field = value`? -/
def isAttrAssign : PyStmt → Bool
  | .attrAssign _ _ _ => true
  | _ => false

/-- Split a character list on a separator character. -/
def splitOnChar (c : Char) : List Char → List (List Char)
  | [] => [[]]
  | x :: xs =>
    let r := splitOnChar c xs
    if x = c then [] :: r
    else
      match r with
      | [] => [[x]]
      | y :: ys => (x :: y) :: ys

/-- A PEP 508 direct reference to a git source: package name, repository
URL, pinned revision, and optional subdirectory fragment. -/
structure DirectRef where
  pkg : String
  url : String
  rev : String
  subdir : Option String

/-- Parse a dependency specifier of the form
`name@git+URL@rev` optionally followed by `#subdirectory=path`. -/
def parseDirectRef (s : String) : Option DirectRef :=
  match splitOnChar '@' s.data with
  | [pkgCs, protoUrl, revFrag] =>
    if ("git+".data).isPrefixOf protoUrl then
      let urlCs := protoUrl.drop 4
      match splitOnChar '#' revFrag with
      | [revCs] => some ⟨String.mk pkgCs, String.mk urlCs, String.mk revCs, none⟩
      | [revCs, frag] =>
        if ("subdirectory=".data).isPrefixOf frag then
          some ⟨String.mk pkgCs, String.mk urlCs, String.mk revCs,
            some (String.mk (frag.drop 13))⟩
        else none
      | _ => none
    else none
  | _ => none

/-- The specifier's source is fetched over HTTPS from a repository of the
`github.com/quartiq` organization. -/
def pinsQuartiqHttps (r : DirectRef) : Bool :=
  ("https://github.com/quartiq/".data).isPrefixOf r.url.data

/-- The string has the `MAJOR.MINOR.PATCH` form: exactly three
dot-separated nonempty runs of decimal digits. -/
def isSemVer (s : String) : Bool :=
  let parts := splitOnChar '.' s.data
  parts.length == 3 && parts.all (fun p => !p.isEmpty && p.all Char.isDigit)

/-- Modelled from the spec: the `version` field of the sibling build
manifest (the project's `Cargo.toml`), which is not under `src/`.  The spec
asserts the descriptor's version is kept in sync with it. -/
def cargoTomlVersion : String := "0.1.0"

/-- Distribution-metadata keyword names of the packaging tool (distutils
`DistributionMetadata` attributes plus the setuptools dependency-metadata
keywords).  `packages`, the build configuration of which modules to ship,
is not distribution metadata. -/
def metadataFieldNames : List String :=
  [ "name", "version", "description", "long_description", "author",
    "author_email", "maintainer", "maintainer_email", "url", "download_url",
    "license", "keywords", "platforms", "classifiers", "provides",
    "requires", "obsoletes", "install_requires", "extras_require",
    "python_requires", "setup_requires" ]

/-- A sample project layout: a `thermostat` package containing a
`thermostat.utils` sub-package, both with `__init__.py`. -/
def demoLayout : List Dir :=
  [Dir.mk "thermostat" true [Dir.mk "utils" true []]]

theorem mem_pkgsOfDirs_of_mem {d : Dir} {ds : List Dir} {pre x : String}
    (hd : d ∈ ds) (hx : x ∈ pkgsOfDir pre d) : x ∈ pkgsOfDirs pre ds := by
  induction ds with
  | nil => cases hd
  | cons a as ih =>
    rcases List.mem_cons.mp hd with h | h
    · subst h
      simp only [pkgsOfDirs]
      exact List.mem_append.mpr (Or.inl hx)
    · simp only [pkgsOfDirs]
      exact List.mem_append.mpr (Or.inr (ih h))

theorem foldDotted_mem_pkgsOfDirs {ds : List Dir} {p : List String}
    (h : PkgPath ds p) : ∀ pre, foldDotted pre p ∈ pkgsOfDirs pre ds := by
  induction h with
  | here d ds hd hi =>
    intro pre
    obtain ⟨n, hin, cs⟩ := d
    have hin' : hin = true := hi
    subst hin'
    refine mem_pkgsOfDirs_of_mem hd ?_
    simp only [pkgsOfDir, if_true]
    exact List.mem_cons_self _ _
  | there d ds rest hd hi _ ih =>
    intro pre
    obtain ⟨n, hin, cs⟩ := d
    have hin' : hin = true := hi
    subst hin'
    refine mem_pkgsOfDirs_of_mem hd ?_
    simp only [pkgsOfDir, if_true]
    exact List.mem_cons_of_mem _ (ih (dotted pre n))

/-- Every dotted sub-package path of the project tree appears in the
`find_packages` result. -/
theorem find_packages_complete {layout : List Dir} {p : List String}
    (h : PkgPath layout p) : foldDotted "" p ∈ find_packages layout :=
  foldDotted_mem_pkgsOfDirs h ""

/-- C1: evaluating the script performs exactly one registration of a
package descriptor, with name `thermostat`, version `0.1.0`, description
`Thermostat Utilities`, author `QUARTIQ GmbH`, license `MIT`, and the
dependency list; among the packaging tool's distribution-metadata keywords
the registration sets exactly those six and no others. -/
theorem claim_C1_single_registration (layout : List Dir) :
    ∃ st c, runScript layout = .ok st ∧ st.regs = [c] ∧
      c.kwargs.lookup "name" = some (PyVal.str "thermostat") ∧
      c.kwargs.lookup "version" = some (PyVal.str "0.1.0") ∧
      c.kwargs.lookup "description" = some (PyVal.str "Thermostat Utilities") ∧
      c.kwargs.lookup "author" = some (PyVal.str "QUARTIQ GmbH") ∧
      c.kwargs.lookup "license" = some (PyVal.str "MIT") ∧
      c.kwargs.lookup "install_requires" =
        some (PyVal.list [.str dep_stabilizer, .str dep_miniconf_mqtt]) ∧
      (c.kwargs.filter (fun kv => metadataFieldNames.contains kv.1)).map Prod.fst =
        ["name", "version", "description", "author", "license", "install_requires"] :=
  ⟨_, _, runScript_eq layout, rfl, rfl, rfl, rfl, rfl, rfl, rfl, rfl⟩

/-- C2: the descriptor's `version` field equals the version declared in the
sibling `Cargo.toml` build manifest (modelled from the spec, since that
manifest is outside the given source). -/
theorem claim_C2_version_sync (layout : List Dir) :
    ∃ st c, runScript layout = .ok st ∧ st.regs = [c] ∧
      c.kwargs.lookup "version" = some (PyVal.str cargoTomlVersion) :=
  ⟨_, _, runScript_eq layout, rfl, rfl⟩

/-- C3: the dependency field is an ordered sequence of exactly two
specifiers — first `stabilizer` pinned to revision `becc1c72` with
subdirectory `py`, then `miniconf-mqtt` pinned to tag `miniconf-v0.10.1`
with subdirectory `py/miniconf-mqtt` — each a direct source-control
reference naming a package, a git URL, a revision pin, and a
subdirectory. -/
theorem claim_C3_dependency_specifiers (layout : List Dir) :
    ∃ st c, runScript layout = .ok st ∧ st.regs = [c] ∧
      c.kwargs.lookup "install_requires" =
        some (PyVal.list [.str dep_stabilizer, .str dep_miniconf_mqtt]) ∧
      parseDirectRef dep_stabilizer =
        some ⟨"stabilizer", "https://github.com/quartiq/stabilizer",
          "becc1c72", some "py"⟩ ∧
      parseDirectRef dep_miniconf_mqtt =
        some ⟨"miniconf-mqtt", "https://github.com/quartiq/miniconf",
          "miniconf-v0.10.1", some "py/miniconf-mqtt"⟩ :=
  ⟨_, _, runScript_eq layout, rfl, rfl, rfl, rfl⟩

/-- C4: the `packages` argument is not a static literal but the result of
`find_packages` on the project layout, and for every layout `find_packages`
discovers every sub-package path under the project root. -/
theorem claim_C4_find_packages (layout : List Dir) :
    (∃ st c, runScript layout = .ok st ∧ st.regs = [c] ∧
      c.kwargs.lookup "packages" =
        some (PyVal.list ((find_packages layout).map PyVal.str))) ∧
    ∀ p, PkgPath layout p → foldDotted "" p ∈ find_packages layout :=
  ⟨⟨_, _, runScript_eq layout, rfl, rfl⟩, fun _ h => find_packages_complete h⟩

/-- Witness for C4: on the sample layout the `thermostat.utils` sub-package
path is discovered. -/
theorem claim_C4_find_packages_witness :
    (∃ st c, runScript demoLayout = .ok st ∧ st.regs = [c] ∧
      c.kwargs.lookup "packages" =
        some (PyVal.list ((find_packages demoLayout).map PyVal.str))) ∧
    foldDotted "" ["thermostat", "utils"] ∈ find_packages demoLayout := by
  have hp : PkgPath demoLayout ["thermostat", "utils"] :=
    PkgPath.there (Dir.mk "thermostat" true [Dir.mk "utils" true []])
      demoLayout ["utils"] (List.Mem.head _) rfl
      (PkgPath.here (Dir.mk "utils" true []) [Dir.mk "utils" true []]
        (List.Mem.head _) rfl)
  exact ⟨(claim_C4_find_packages demoLayout).1,
    (claim_C4_find_packages demoLayout).2 _ hp⟩

/-- C5: the script body contains no branching statement, and the descriptor
metadata the evaluation registers — every keyword argument other than the
layout-derived `packages` list — is identical across any two evaluations,
whatever the project layouts. -/
theorem claim_C5_deterministic_metadata (l1 l2 : List Dir) :
    countStmtList isBranch setupPyBody = 0 ∧
    ∃ st1 st2, runScript l1 = .ok st1 ∧ runScript l2 = .ok st2 ∧
      st1.regs.map (fun c => c.kwargs.filter (fun kv => kv.1 != "packages")) =
      st2.regs.map (fun c => c.kwargs.filter (fun kv => kv.1 != "packages")) :=
  ⟨rfl, _, _, runScript_eq l1, runScript_eq l2, rfl⟩

/-- C6: evaluating the script never produces an error, for any project
layout, and the script body contains no `raise` statement and no
`try`/`except` handler of its own. -/
theorem claim_C6_no_failure_branch (layout : List Dir) :
    (∃ st, runScript layout = .ok st) ∧
    countStmtList isRaise setupPyBody = 0 ∧
    countStmtList isTry setupPyBody = 0 :=
  ⟨⟨_, runScript_eq layout⟩, rfl, rfl⟩

/-- C7: the descriptor is constructed exactly once per evaluation — the
registration trace has length one — the evaluation performs zero attribute
mutations, and the script body contains no attribute-write statement. -/
theorem claim_C7_constructed_once (layout : List Dir) :
    ∃ st, runScript layout = .ok st ∧ st.regs.length = 1 ∧ st.muts = 0 ∧
      countStmtList isAttrAssign setupPyBody = 0 :=
  ⟨_, runScript_eq layout, rfl, rfl, rfl⟩

/-- C8: the declared version string `0.1.0` has the `MAJOR.MINOR.PATCH`
semantic-version form of three dot-separated runs of decimal digits. -/
theorem claim_C8_semver (layout : List Dir) :
    ∃ st c, runScript layout = .ok st ∧ st.regs = [c] ∧
      c.kwargs.lookup "version" = some (PyVal.str "0.1.0") ∧
      isSemVer "0.1.0" = true :=
  ⟨_, _, runScript_eq layout, rfl, rfl, rfl⟩

/-- C9: both dependency specifiers reference their source over HTTPS from
the `github.com/quartiq` organization, the `stabilizer` one pinned to
commit `becc1c72` and the `miniconf-mqtt` one pinned to tag
`miniconf-v0.10.1`. -/
theorem claim_C9_pinned_quartiq (layout : List Dir) :
    ∃ st c, runScript layout = .ok st ∧ st.regs = [c] ∧
      c.kwargs.lookup "install_requires" =
        some (PyVal.list [.str dep_stabilizer, .str dep_miniconf_mqtt]) ∧
      ∃ r1 r2, parseDirectRef dep_stabilizer = some r1 ∧
        parseDirectRef dep_miniconf_mqtt = some r2 ∧
        pinsQuartiqHttps r1 = true ∧ r1.rev = "becc1c72" ∧
        pinsQuartiqHttps r2 = true ∧ r2.rev = "miniconf-v0.10.1" :=
  ⟨_, _, runScript_eq layout, rfl, rfl, _, _, rfl, rfl, rfl, rfl, rfl, rfl⟩

/-- C10: the registration passes exactly the seven keyword arguments of the
source and in particular sets no `python_requires`, `extras_require`,
`classifiers`, or `entry_points`, so the descriptor itself constrains no
interpreter version. -/
theorem claim_C10_no_environment_constraints (layout : List Dir) :
    ∃ st c, runScript layout = .ok st ∧ st.regs = [c] ∧
      c.kwargs.map Prod.fst =
        ["name", "packages", "version", "description", "author", "license",
          "install_requires"] ∧
      c.kwargs.lookup "python_requires" = none ∧
      c.kwargs.lookup "extras_require" = none ∧
      c.kwargs.lookup "classifiers" = none ∧
      c.kwargs.lookup "entry_points" = none :=
  ⟨_, _, runScript_eq layout, rfl, rfl, rfl, rfl, rfl, rfl⟩

end ThermostatSetup
